import Mathlib

/-!
Verification of SSD1306_OLED_HW_I2C_LIB (SSD1306_OLED_HW_I2C_LIB.cpp).

The library drives a 128x64 OLED over hardware I2C.  Every public operation
is a straight-line sequence of four bus primitives:

  * `D_START_CMD()` - I2C start + slave address + control byte 0x00,
  * `D_START_DAT()` - I2C start + slave address + control byte 0x40,
  * `D_TX(b)`       - transmit one byte,
  * `D_STOP()`      - I2C stop.

We model each public operation as the finite trace of these primitives it
performs (type `Ev`).  The handshake internals of the primitives (status
register checks and the error handler `D_ERROR`) are modelled separately at a
lower level (type `LowEv`) for the error-handling claims.  All machine
integers are `Nat` with `% 256` inserted exactly where the C code truncates a
wider intermediate into a `uint8_t`.
-/

namespace SSD1306

/-- One bus primitive performed by the library: opening a command stream
(`D_START_CMD`), opening a data stream (`D_START_DAT`), transmitting one byte
(`D_TX b`), or stopping (`D_STOP`). -/
inductive Ev where
  | startCmd : Ev
  | startDat : Ev
  | tx : Nat → Ev
  | stop : Ev
  deriving DecidableEq, Repr

/-- Bytes transmitted while a data stream (opened by `D_START_DAT`) is the
current session.  The `Bool` argument records whether we are inside a data
session. -/
def dataBytes : List Ev → Bool → List Nat
  | [], _ => []
  | .startCmd :: es, _ => dataBytes es false
  | .startDat :: es, _ => dataBytes es true
  | .tx b :: es, inData => if inData then b :: dataBytes es inData else dataBytes es inData
  | .stop :: es, _ => dataBytes es false

/-- The data bytes a whole operation writes (pixel bytes). -/
def writtenData (t : List Ev) : List Nat := dataBytes t false

/-- Bytes transmitted while a command stream (opened by `D_START_CMD`) is the
current session. -/
def cmdBytes : List Ev → Bool → List Nat
  | [], _ => []
  | .startCmd :: es, _ => cmdBytes es true
  | .startDat :: es, _ => cmdBytes es false
  | .tx b :: es, inCmd => if inCmd then b :: cmdBytes es inCmd else cmdBytes es inCmd
  | .stop :: es, _ => cmdBytes es false

/-- The command bytes a whole operation writes. -/
def writtenCmd (t : List Ev) : List Nat := cmdBytes t false

/-- Recognizer for `Ev.startDat`. -/
def isStartDat : Ev → Bool
  | .startDat => true
  | _ => false

/-- Recognizer for `Ev.startCmd`. -/
def isStartCmd : Ev → Bool
  | .startCmd => true
  | _ => false

/-- Number of data sessions an operation opens. -/
def numDat (t : List Ev) : Nat := t.countP isStartDat

/-- Number of command sessions an operation opens. -/
def numCmd (t : List Ev) : Nat := t.countP isStartCmd

/-- Session-bracketing automaton.  State `true` means a session is open.
Opening while open (nested sessions) and stopping while closed are faults
(`none`).  A trace is well bracketed when run from the closed state it ends
in the closed state. -/
def runBrackets : List Ev → Bool → Option Bool
  | [], st => some st
  | .startCmd :: es, st => if st then none else runBrackets es true
  | .startDat :: es, st => if st then none else runBrackets es true
  | .tx _ :: es, st => runBrackets es st
  | .stop :: es, st => if st then runBrackets es false else none

/-- A trace whose sessions are perfectly bracketed: every open is matched by
exactly one stop before the next open, and nothing is left open at the end. -/
def wellBracketed (t : List Ev) : Prop := runBrackets t false = some false

instance (t : List Ev) : Decidable (wellBracketed t) := by
  unfold wellBracketed; infer_instance

/-! ## The operations, translated from SSD1306_OLED_HW_I2C_LIB.cpp.

At this level `D_START_CMD()` contributes the single event `Ev.startCmd`
(its internal control byte 0x00 and handshake belong to the low level model),
likewise `D_START_DAT()`. -/

/-- Display initialization sequence (`init_sequence` in the source, read from
PROGMEM). -/
def init_sequence : List Nat :=
  [0xAE,
   0x20, 0x00,
   0xB0,
   0xC8,
   0x00,
   0x10,
   0x40,
   0x81, 0x00,
   0xA1,
   0xA6,
   0xA8, 0x3F,
   0xA4,
   0xD3, 0x00,
   0xD5,
   0xF0,
   0xD9, 0x22,
   0xDA, 0x12,
   0xDB,
   0x20,
   0x8D, 0x14,
   0xAF]

/-- Modelled from the spec: the header `SSD1306_OLED_HW_I2C_LIB.h` defining
`OLED_CMD_SET_COLUMN_RANGE` is not under src/.  The spec describes it as the
fixed column-address-range opcode of the SSD1306 command set, which is 0x21. -/
def OLED_CMD_SET_COLUMN_RANGE : Nat := 0x21

/-- Modelled from the spec: the header `SSD1306_OLED_HW_I2C_LIB.h` defining
`OLED_CMD_SET_PAGE_RANGE` is not under src/.  The spec describes it as the
fixed page-address-range opcode of the SSD1306 command set, which is 0x22. -/
def OLED_CMD_SET_PAGE_RANGE : Nat := 0x22

/-- Trace of `D_INIT()`: one command stream carrying the init sequence, then the
column range [0,0x7F] and the page range [0,7]. -/
def D_INIT : List Ev :=
  [Ev.startCmd] ++ init_sequence.map Ev.tx
    ++ [Ev.tx OLED_CMD_SET_COLUMN_RANGE, Ev.tx 0x00, Ev.tx 0x7F,
        Ev.tx OLED_CMD_SET_PAGE_RANGE, Ev.tx 0, Ev.tx 0x07, Ev.stop]

/-- Trace of `D_SETPOS(x, y)`: one command stream carrying the page-select byte
`0xB0 + y` (truncated to `uint8_t` when passed to `D_TX`), the high column
nibble ored with 0x10, and the low column nibble. -/
def D_SETPOS (x y : Nat) : List Ev :=
  [Ev.startCmd, Ev.tx ((0xB0 + y) % 256),
   Ev.tx (((x &&& 0xF0) >>> 4) ||| 0x10), Ev.tx (x &&& 0x0F), Ev.stop]

/-- Trace of `D_CLEAR()`: set position (0,0), then one data stream of 128*8 zero
bytes. -/
def D_CLEAR : List Ev :=
  D_SETPOS 0 0 ++ [Ev.startDat] ++ List.replicate (128 * 8) (Ev.tx 0) ++ [Ev.stop]

/-- Trace of `D_ON()`: single command 0xAF. -/
def D_ON : List Ev := [Ev.startCmd, Ev.tx 0xAF, Ev.stop]

/-- Trace of `D_OFF()`: single command 0xAE. -/
def D_OFF : List Ev := [Ev.startCmd, Ev.tx 0xAE, Ev.stop]

/-- Trace of `D_CONTRAST(contrast)`: command 0x81 followed by the contrast value. -/
def D_CONTRAST (contrast : Nat) : List Ev :=
  [Ev.startCmd, Ev.tx 0x81, Ev.tx contrast, Ev.stop]

/-- Trace of `D_DRAW_HOR(xpos, ypos, length)`: set position to column `xpos` at page
`ypos / 8`, then one data stream of `length` copies of the byte
`1 << (ypos % 8)`. -/
def D_DRAW_HOR (xpos ypos length : Nat) : List Ev :=
  let ypage := ypos / 8
  let dot_byte := 1 <<< (ypos % 8)
  D_SETPOS xpos ypage ++ [Ev.startDat] ++ List.replicate length (Ev.tx dot_byte) ++ [Ev.stop]

/-- Trace of `D_DRAW_VERT(xpos, ypos, length)`.  In the C source `ypos` and `length`
are `uint8_t`; the sums and shifts below are computed after integer promotion
so no 8-bit wraparound occurs in them, while `dot_byte_start` is truncated
when stored back into a `uint8_t`.  `ypages_span == 0` takes the single-page
branch; otherwise first page, intermediate full pages (the source guards the
loop with `ypages_span > 1`, drawing pages `ypage_start+1 .. ypage_end-1`),
and last page are drawn in separate data sessions. -/
def D_DRAW_VERT (xpos ypos length : Nat) : List Ev :=
  let ypage_start := ypos / 8
  let ypage_end := (ypos + length) / 8
  let ypages_span := ypage_end - ypage_start
  let dot_byte_start := (0xFF <<< (ypos % 8)) % 256
  let dot_byte_end := 0xFF >>> ((ypos + length) % 8)
  if ypages_span = 0 then
    D_SETPOS xpos ypage_start ++ [Ev.startDat, Ev.tx (dot_byte_start &&& dot_byte_end), Ev.stop]
  else
    D_SETPOS xpos ypage_start ++ [Ev.startDat, Ev.tx dot_byte_start, Ev.stop]
      ++ (if 1 < ypages_span then
            (List.range' (ypage_start + 1) (ypage_end - (ypage_start + 1))).flatMap
              (fun i => D_SETPOS xpos i ++ [Ev.startDat, Ev.tx 0xFF, Ev.stop])
          else [])
      ++ D_SETPOS xpos ypage_end ++ [Ev.startDat, Ev.tx dot_byte_end, Ev.stop]

/-- ASCII 6x8 font (`D_FONT6x8` in the source): 5 column bytes per glyph,
indexed from the space character (ASCII 32). -/
def D_FONT6x8 : List Nat :=
  [0x00, 0x00, 0x00, 0x00, 0x00,
   0x00, 0x00, 0x2f, 0x00, 0x00,
   0x00, 0x07, 0x00, 0x07, 0x00,
   0x14, 0x7f, 0x14, 0x7f, 0x14,
   0x24, 0x2a, 0x7f, 0x2a, 0x12,
   0x62, 0x64, 0x08, 0x13, 0x23,
   0x36, 0x49, 0x55, 0x22, 0x50,
   0x00, 0x05, 0x03, 0x00, 0x00,
   0x00, 0x1c, 0x22, 0x41, 0x00,
   0x00, 0x41, 0x22, 0x1c, 0x00,
   0x14, 0x08, 0x3E, 0x08, 0x14,
   0x08, 0x08, 0x3E, 0x08, 0x08,
   0x00, 0x00, 0xA0, 0x60, 0x00,
   0x08, 0x08, 0x08, 0x08, 0x08,
   0x00, 0x60, 0x60, 0x00, 0x00,
   0x20, 0x10, 0x08, 0x04, 0x02,
   0x3E, 0x51, 0x49, 0x45, 0x3E,
   0x00, 0x42, 0x7F, 0x40, 0x00,
   0x42, 0x61, 0x51, 0x49, 0x46,
   0x21, 0x41, 0x45, 0x4B, 0x31,
   0x18, 0x14, 0x12, 0x7F, 0x10,
   0x27, 0x45, 0x45, 0x45, 0x39,
   0x3C, 0x4A, 0x49, 0x49, 0x30,
   0x01, 0x71, 0x09, 0x05, 0x03,
   0x36, 0x49, 0x49, 0x49, 0x36,
   0x06, 0x49, 0x49, 0x29, 0x1E,
   0x00, 0x36, 0x36, 0x00, 0x00,
   0x00, 0x56, 0x36, 0x00, 0x00,
   0x08, 0x14, 0x22, 0x41, 0x00,
   0x14, 0x14, 0x14, 0x14, 0x14,
   0x00, 0x41, 0x22, 0x14, 0x08,
   0x02, 0x01, 0x51, 0x09, 0x06,
   0x32, 0x49, 0x59, 0x51, 0x3E,
   0x7C, 0x12, 0x11, 0x12, 0x7C,
   0x7F, 0x49, 0x49, 0x49, 0x36,
   0x3E, 0x41, 0x41, 0x41, 0x22,
   0x7F, 0x41, 0x41, 0x22, 0x1C,
   0x7F, 0x49, 0x49, 0x49, 0x41,
   0x7F, 0x09, 0x09, 0x09, 0x01,
   0x3E, 0x41, 0x49, 0x49, 0x7A,
   0x7F, 0x08, 0x08, 0x08, 0x7F,
   0x00, 0x41, 0x7F, 0x41, 0x00,
   0x20, 0x40, 0x41, 0x3F, 0x01,
   0x7F, 0x08, 0x14, 0x22, 0x41,
   0x7F, 0x40, 0x40, 0x40, 0x40,
   0x7F, 0x02, 0x0C, 0x02, 0x7F,
   0x7F, 0x04, 0x08, 0x10, 0x7F,
   0x3E, 0x41, 0x41, 0x41, 0x3E,
   0x7F, 0x09, 0x09, 0x09, 0x06,
   0x3E, 0x41, 0x51, 0x21, 0x5E,
   0x7F, 0x09, 0x19, 0x29, 0x46,
   0x46, 0x49, 0x49, 0x49, 0x31,
   0x01, 0x01, 0x7F, 0x01, 0x01,
   0x3F, 0x40, 0x40, 0x40, 0x3F,
   0x1F, 0x20, 0x40, 0x20, 0x1F,
   0x3F, 0x40, 0x38, 0x40, 0x3F,
   0x63, 0x14, 0x08, 0x14, 0x63,
   0x07, 0x08, 0x70, 0x08, 0x07,
   0x61, 0x51, 0x49, 0x45, 0x43,
   0x00, 0x7F, 0x41, 0x41, 0x00,
   0x55, 0x2A, 0x55, 0x2A, 0x55,
   0x00, 0x41, 0x41, 0x7F, 0x00,
   0x04, 0x02, 0x01, 0x02, 0x04,
   0x40, 0x40, 0x40, 0x40, 0x40,
   0x00, 0x01, 0x02, 0x04, 0x00,
   0x20, 0x54, 0x54, 0x54, 0x78,
   0x7F, 0x48, 0x44, 0x44, 0x38,
   0x38, 0x44, 0x44, 0x44, 0x20,
   0x38, 0x44, 0x44, 0x48, 0x7F,
   0x38, 0x54, 0x54, 0x54, 0x18,
   0x08, 0x7E, 0x09, 0x01, 0x02,
   0x18, 0xA4, 0xA4, 0xA4, 0x7C,
   0x7F, 0x08, 0x04, 0x04, 0x78,
   0x00, 0x44, 0x7D, 0x40, 0x00,
   0x40, 0x80, 0x84, 0x7D, 0x00,
   0x7F, 0x10, 0x28, 0x44, 0x00,
   0x00, 0x41, 0x7F, 0x40, 0x00,
   0x7C, 0x04, 0x18, 0x04, 0x78,
   0x7C, 0x08, 0x04, 0x04, 0x78,
   0x38, 0x44, 0x44, 0x44, 0x38,
   0xFC, 0x24, 0x24, 0x24, 0x18,
   0x18, 0x24, 0x24, 0x18, 0xFC,
   0x7C, 0x08, 0x04, 0x04, 0x08,
   0x48, 0x54, 0x54, 0x54, 0x20,
   0x04, 0x3F, 0x44, 0x40, 0x20,
   0x3C, 0x40, 0x40, 0x20, 0x7C,
   0x1C, 0x20, 0x40, 0x20, 0x1C,
   0x3C, 0x40, 0x30, 0x40, 0x3C,
   0x44, 0x28, 0x10, 0x28, 0x44,
   0x1C, 0xA0, 0xA0, 0xA0, 0x7C,
   0x44, 0x64, 0x54, 0x4C, 0x44]

/-- Trace of `D_PRINT_CHAR(ch)`: one data stream with a leading zero byte (1 px space)
and the glyph's 5 font columns.  `ch` is the character's byte value; the C
computes `uint8_t c = ch - 32`, which wraps modulo 256 for `ch < 32`.  An
out-of-range PROGMEM read is modelled as 0. -/
def D_PRINT_CHAR (ch : Nat) : List Ev :=
  let c := (ch + 256 - 32) % 256
  [Ev.startDat, Ev.tx 0x00]
    ++ (List.range 5).map (fun i => Ev.tx (D_FONT6x8.getD (c * 5 + i) 0))
    ++ [Ev.stop]

/-- Trace of `D_PRINT_STR(s)`: prints each character in turn.  The C iterates a
NUL-terminated string; the model takes the list of its (nonzero) character
bytes. -/
def D_PRINT_STR (s : List Nat) : List Ev := s.flatMap D_PRINT_CHAR

/-- Modelled from the spec: `USINT2DECASCII_MAX_DIGITS` is declared in the
header, which is not under src/; the spec fixes the maximum decimal digit
width at 5 (matching the source's five powers 10000..1 and `pos < 5` loop). -/
def USINT2DECASCII_MAX_DIGITS : Nat := 5

/-- The inner `while (num >= p) { digit++; num -= p; }` loop of
`usint2decascii`, with structural fuel (the caller passes `fuel = num`,
which always suffices since `p ≥ 1`).  Returns (digit, remaining num). -/
def subLoop : Nat → Nat → Nat → Nat × Nat
  | 0, _, num => (0, num)
  | fuel + 1, p, num =>
    if p ≤ num then
      let r := subLoop fuel p (num - p)
      (r.1 + 1, r.2)
    else (0, num)

/-- The powers table of `usint2decascii`. -/
def powers : List Nat := [10000, 1000, 100, 10, 1]

/-- The `for (pos ...)` loop of `usint2decascii` (CHOICE 3 of the source:
space-padded, digits offset).  Walks the powers list carrying the remaining
`num`, the position and the `digits` offset; returns the buffer contents (as
byte values: `digit + '0'`, or 32 for the space written as `digit = -16`)
and the final `digits` offset. -/
def convLoop : List Nat → Nat → Nat → Nat → List Nat × Nat
  | [], _, _, digits => ([], digits)
  | p :: ps, num, pos, digits =>
    let dm := subLoop num p num
    let d := dm.1
    let num' := dm.2
    if digits = USINT2DECASCII_MAX_DIGITS - 1 then
      if d = 0 then
        if pos < USINT2DECASCII_MAX_DIGITS - 1 then
          let r := convLoop ps num' (pos + 1) digits
          (32 :: r.1, r.2)
        else
          let r := convLoop ps num' (pos + 1) digits
          ((d + 48) :: r.1, r.2)
      else
        let r := convLoop ps num' (pos + 1) pos
        ((d + 48) :: r.1, r.2)
    else
      let r := convLoop ps num' (pos + 1) digits
      ((d + 48) :: r.1, r.2)

/-- Function `usint2decascii(num, buffer)`: returns the 5 buffer bytes and the offset
of the first significant digit. -/
def usint2decascii (num : Nat) : List Nat × Nat :=
  convLoop powers num 0 (USINT2DECASCII_MAX_DIGITS - 1)

/-- The byte string `D_PRINT_INT` actually passes to `D_PRINT_STR`: the
buffer from the returned offset on (the terminator at index 5 ends the C
string; every buffer byte is 32 or a digit, never 0). -/
def printedDigits (num : Nat) : List Nat :=
  (usint2decascii num).1.drop (usint2decascii num).2

/-- Trace of `D_PRINT_INT(num)`: converts and prints from the digits offset. -/
def D_PRINT_INT (num : Nat) : List Ev := D_PRINT_STR (printedDigits num)

/-- Spec-side definition (refinement comparator, following the spec's words,
not the source): the standard decimal representation of `n` in ASCII, most
significant digit first, with no leading blanks; 0 is the single digit "0". -/
def decimalAscii (n : Nat) : List Nat :=
  if n = 0 then [48] else (Nat.digits 10 n).reverse.map (fun d => d + 48)

/-! ## Low-level model of the bus primitives (for the error-handling claim).

`D_START_CMD`/`D_START_DAT`/`D_TX` each spin on `TWCR`, then compare
`TWSR & 0xF8` against the expected status (0x08 after start, 0x18 after the
address byte, 0x28 after a data byte) and call `D_ERROR()` on mismatch; they
return `void` and fall through to the next protocol step regardless.  The
model takes the observed status of every acknowledgment step as an input and
emits the protocol steps plus the error signals. -/

/-- Low-level observable events of one I2C transaction. -/
inductive LowEv where
  | busStart : LowEv
  | addrW : LowEv
  | byte : Nat → LowEv
  | errorSignal : LowEv
  | busStop : LowEv
  deriving DecidableEq, Repr

/-- Model of `D_TX(b)` at the low level, given the status `TWSR` shows after the
transmission: the byte always goes out; `D_ERROR()` fires iff
`(TWSR & 0xF8) != 0x28`; control always falls through. -/
def lowTx (b status : Nat) : List LowEv :=
  [LowEv.byte b] ++ (if status &&& 0xF8 = 0x28 then [] else [LowEv.errorSignal])

/-- Model of `D_START_CMD()` at the low level: start condition (status expected 0x08),
slave address with write intent (status expected 0x18), then the command
control byte 0x00 via `D_TX`. -/
def lowStartCmd (s1 s2 s3 : Nat) : List LowEv :=
  [LowEv.busStart] ++ (if s1 &&& 0xF8 = 0x08 then [] else [LowEv.errorSignal])
    ++ [LowEv.addrW] ++ (if s2 &&& 0xF8 = 0x18 then [] else [LowEv.errorSignal])
    ++ lowTx 0x00 s3

/-- Model of `D_START_DAT()` at the low level: identical handshake, but the control
byte transmitted is 0x40. -/
def lowStartDat (s1 s2 s3 : Nat) : List LowEv :=
  [LowEv.busStart] ++ (if s1 &&& 0xF8 = 0x08 then [] else [LowEv.errorSignal])
    ++ [LowEv.addrW] ++ (if s2 &&& 0xF8 = 0x18 then [] else [LowEv.errorSignal])
    ++ lowTx 0x40 s3

/-- A whole command session: `D_START_CMD()`, then one `D_TX` per payload
pair `(byte, observed status)`, then `D_STOP()`. -/
def lowCmdSession (s1 s2 s3 : Nat) (items : List (Nat × Nat)) : List LowEv :=
  lowStartCmd s1 s2 s3 ++ items.flatMap (fun p => lowTx p.1 p.2) ++ [LowEv.busStop]

/-- A whole data session: `D_START_DAT()`, then one `D_TX` per payload pair,
then `D_STOP()`. -/
def lowDatSession (s1 s2 s3 : Nat) (items : List (Nat × Nat)) : List LowEv :=
  lowStartDat s1 s2 s3 ++ items.flatMap (fun p => lowTx p.1 p.2) ++ [LowEv.busStop]

/-- Protocol steps are every low-level event except the error signal. -/
def isStep : LowEv → Bool
  | .errorSignal => false
  | _ => true

/-! ## Helper lemmas about the trace observers -/

/-- Closed form of the data bytes `D_DRAW_VERT` emits (proved equal to the
trace observation in `writtenData_drawVert`). -/
def vertBytes (ypos length : Nat) : List Nat :=
  let s := (0xFF <<< (ypos % 8)) % 256
  let e := 0xFF >>> ((ypos + length) % 8)
  let span := (ypos + length) / 8 - ypos / 8
  if span = 0 then [s &&& e]
  else s :: (List.replicate (span - 1) 0xFF ++ [e])

theorem dataBytes_setpos_append (x y : Nat) (rest : List Ev) (fl : Bool) :
    dataBytes (D_SETPOS x y ++ rest) fl = dataBytes rest false := by
  simp [D_SETPOS, dataBytes]

theorem dataBytes_startDat (rest : List Ev) (fl : Bool) :
    dataBytes (Ev.startDat :: rest) fl = dataBytes rest true := rfl

theorem dataBytes_stop (rest : List Ev) (fl : Bool) :
    dataBytes (Ev.stop :: rest) fl = dataBytes rest false := rfl

theorem runBrackets_startDat (rest : List Ev) :
    runBrackets (Ev.startDat :: rest) false = runBrackets rest true := rfl

theorem dataBytes_datSession (b : Nat) (rest : List Ev) (fl : Bool) :
    dataBytes (Ev.startDat :: Ev.tx b :: Ev.stop :: rest) fl = b :: dataBytes rest false := by
  simp [dataBytes]

theorem dataBytes_replicate_tx (n b : Nat) (rest : List Ev) :
    dataBytes (List.replicate n (Ev.tx b) ++ rest) true =
      List.replicate n b ++ dataBytes rest true := by
  induction n with
  | zero => simp
  | succ m ih => simp [List.replicate_succ, dataBytes, ih]

theorem dataBytes_pages (x : Nat) (l : List Nat) (rest : List Ev) :
    dataBytes ((l.flatMap fun i => D_SETPOS x i ++ [Ev.startDat, Ev.tx 0xFF, Ev.stop])
        ++ rest) false =
      List.replicate l.length 0xFF ++ dataBytes rest false := by
  induction l with
  | nil => simp
  | cons i is ih =>
    simp only [List.flatMap_cons, List.append_assoc, dataBytes_setpos_append,
      List.cons_append, List.nil_append, dataBytes_datSession]
    simpa [List.replicate_succ] using ih

theorem writtenData_drawVert (x y len : Nat) :
    writtenData (D_DRAW_VERT x y len) = vertBytes y len := by
  unfold writtenData D_DRAW_VERT vertBytes
  by_cases h : (y + len) / 8 - y / 8 = 0
  · simp only [if_pos h]
    rw [dataBytes_setpos_append]
    simp [dataBytes]
  · simp only [if_neg h]
    by_cases h1 : 1 < (y + len) / 8 - y / 8
    · have hr : (y + len) / 8 - (y / 8 + 1) = ((y + len) / 8 - y / 8) - 1 := by omega
      simp only [if_pos h1, hr, List.append_assoc, List.cons_append, List.nil_append,
        dataBytes_setpos_append, dataBytes_datSession, dataBytes_pages, List.length_range']
      simp [dataBytes]
    · have hspan : (y + len) / 8 - y / 8 = 1 := by omega
      simp only [if_neg h1, List.append_assoc, List.cons_append, List.nil_append,
        dataBytes_setpos_append, dataBytes_datSession, hspan]
      simp [dataBytes]

theorem runBrackets_append (a b : List Ev) (st : Bool) :
    runBrackets (a ++ b) st = (runBrackets a st).bind fun s => runBrackets b s := by
  induction a generalizing st with
  | nil => simp [runBrackets]
  | cons e es ih =>
    cases e with
    | startCmd => cases st <;> simp [runBrackets, ih]
    | startDat => cases st <;> simp [runBrackets, ih]
    | tx b' => simp [runBrackets, ih]
    | stop => cases st <;> simp [runBrackets, ih]

theorem runBrackets_setpos (x y : Nat) : runBrackets (D_SETPOS x y) false = some false := rfl

theorem runBrackets_replicate_tx (n b : Nat) (st : Bool) :
    runBrackets (List.replicate n (Ev.tx b)) st = some st := by
  induction n with
  | zero => simp [runBrackets]
  | succ m ih => simp [List.replicate_succ, runBrackets, ih]

theorem runBrackets_map_tx (l : List Nat) (st : Bool) :
    runBrackets (l.map Ev.tx) st = some st := by
  induction l with
  | nil => simp [runBrackets]
  | cons b bs ih => simp [runBrackets, ih]

theorem countP_replicate (p : Ev → Bool) (n : Nat) (a : Ev) :
    List.countP p (List.replicate n a) = if p a then n else 0 := by
  induction n with
  | zero => simp
  | succ m ih => simp [List.replicate_succ, List.countP_cons, ih]; split <;> omega

theorem runBrackets_pages (x : Nat) (l : List Nat) :
    runBrackets (l.flatMap fun i => D_SETPOS x i ++ [Ev.startDat, Ev.tx 0xFF, Ev.stop])
      false = some false := by
  induction l with
  | nil => rfl
  | cons i is ih =>
    simp only [List.flatMap_cons, List.append_assoc, runBrackets_append, runBrackets_setpos,
      Option.some_bind]
    simpa [runBrackets_append, runBrackets, runBrackets_setpos] using ih

theorem wb_setpos (x y : Nat) : wellBracketed (D_SETPOS x y) := rfl

theorem wb_drawHor (x y len : Nat) : wellBracketed (D_DRAW_HOR x y len) := by
  unfold wellBracketed D_DRAW_HOR
  simp [List.append_assoc, runBrackets_append, runBrackets_setpos, runBrackets,
    runBrackets_replicate_tx]

theorem wb_drawVert (x y len : Nat) : wellBracketed (D_DRAW_VERT x y len) := by
  unfold wellBracketed D_DRAW_VERT
  by_cases h : (y + len) / 8 - y / 8 = 0
  · simp only [if_pos h]
    simp [runBrackets_append, runBrackets_setpos, runBrackets]
  · simp only [if_neg h]
    by_cases h1 : 1 < (y + len) / 8 - y / 8 <;>
      simp [h1, List.append_assoc, runBrackets_append, runBrackets_setpos,
        runBrackets_pages, runBrackets]

theorem wb_clear : wellBracketed D_CLEAR := by
  unfold wellBracketed D_CLEAR
  rw [List.append_assoc, List.append_assoc, runBrackets_append, runBrackets_setpos,
    Option.some_bind, List.singleton_append, runBrackets_startDat, runBrackets_append,
    runBrackets_replicate_tx, Option.some_bind]
  rfl

theorem wb_printChar (ch : Nat) : wellBracketed (D_PRINT_CHAR ch) := rfl

theorem wb_printStr (s : List Nat) : wellBracketed (D_PRINT_STR s) := by
  induction s with
  | nil => rfl
  | cons c cs ih =>
    unfold wellBracketed D_PRINT_STR at *
    rw [List.flatMap_cons, runBrackets_append, wb_printChar c]
    simpa using ih

/-! ## The claims -/

theorem subLoop_eq : ∀ fuel p num : Nat, 0 < p → num ≤ fuel →
    subLoop fuel p num = (num / p, num % p) := by
  intro fuel
  induction fuel with
  | zero =>
    intro p num hp h
    have h0 : num = 0 := by omega
    subst h0
    simp [subLoop]
  | succ m ih =>
    intro p num hp h
    unfold subLoop
    by_cases hpn : p ≤ num
    · rw [if_pos hpn, ih p (num - p) hp (by omega)]
      have hd : num / p = (num - p) / p + 1 := Nat.div_eq_sub_div hp hpn
      have hm : num % p = (num - p) % p := Nat.mod_eq_sub_mod hpn
      simp [hd, hm]
    · rw [if_neg hpn]
      have hd : num / p = 0 := Nat.div_eq_of_lt (by omega)
      have hm : num % p = num := Nat.mod_eq_of_lt (by omega)
      simp [hd, hm]

/-- Closed form of `usint2decascii`: the buffer holds spaces up to the first
significant decimal digit (the last position is always a digit, so 0 renders
as "0"), and the returned offset points at that first digit. -/
theorem usint2decascii_eval (n : Nat) :
    usint2decascii n =
      ([if n < 10000 then 32 else n / 10000 + 48,
        if n < 1000 then 32 else n / 1000 % 10 + 48,
        if n < 100 then 32 else n / 100 % 10 + 48,
        if n < 10 then 32 else n / 10 % 10 + 48,
        n % 10 + 48],
       if 10000 ≤ n then 0 else if 1000 ≤ n then 1 else if 100 ≤ n then 2
       else if 10 ≤ n then 3 else 4) := by
  have s4 : ∀ m : Nat, subLoop m 10000 m = (m / 10000, m % 10000) :=
    fun m => subLoop_eq m 10000 m (by norm_num) le_rfl
  have s3 : ∀ m : Nat, subLoop m 1000 m = (m / 1000, m % 1000) :=
    fun m => subLoop_eq m 1000 m (by norm_num) le_rfl
  have s2 : ∀ m : Nat, subLoop m 100 m = (m / 100, m % 100) :=
    fun m => subLoop_eq m 100 m (by norm_num) le_rfl
  have s1 : ∀ m : Nat, subLoop m 10 m = (m / 10, m % 10) :=
    fun m => subLoop_eq m 10 m (by norm_num) le_rfl
  have s0 : ∀ m : Nat, subLoop m 1 m = (m / 1, m % 1) :=
    fun m => subLoop_eq m 1 m (by norm_num) le_rfl
  by_cases hD : n < 10000
  · have em4 : n % 10000 = n := by omega
    by_cases hC : n < 1000
    · have em3 : n % 1000 = n := by omega
      by_cases hB : n < 100
      · have em2 : n % 100 = n := by omega
        by_cases hA : n < 10
        · have em1 : n % 10 = n := by omega
          have e4 : n / 10000 = 0 := by omega
          have e3 : n / 1000 = 0 := by omega
          have e2 : n / 100 = 0 := by omega
          have e1 : n / 10 = 0 := by omega
          have o4 : ¬ 10000 ≤ n := by omega
          have o3 : ¬ 1000 ≤ n := by omega
          have o2 : ¬ 100 ≤ n := by omega
          have o1 : ¬ 10 ≤ n := by omega
          simp [usint2decascii, powers, convLoop, USINT2DECASCII_MAX_DIGITS,
            s4, s3, s2, s1, s0, em4, em3, em2, em1, e4, e3, e2, e1,
            hA, hB, hC, hD, o4, o3, o2, o1]
        · have e4 : n / 10000 = 0 := by omega
          have e3 : n / 1000 = 0 := by omega
          have e2 : n / 100 = 0 := by omega
          have e1 : n / 10 ≠ 0 := by omega
          have o4 : ¬ 10000 ≤ n := by omega
          have o3 : ¬ 1000 ≤ n := by omega
          have o2 : ¬ 100 ≤ n := by omega
          have o1 : 10 ≤ n := by omega
          simp [usint2decascii, powers, convLoop, USINT2DECASCII_MAX_DIGITS,
            s4, s3, s2, s1, s0, em4, em3, em2, e4, e3, e2, e1,
            hA, hB, hC, hD, o4, o3, o2, o1]
          omega
      · have e4 : n / 10000 = 0 := by omega
        have e3 : n / 1000 = 0 := by omega
        have e2 : n / 100 ≠ 0 := by omega
        have o4 : ¬ 10000 ≤ n := by omega
        have o3 : ¬ 1000 ≤ n := by omega
        have o2 : 100 ≤ n := by omega
        have em1 : n % 100 / 10 = n / 10 % 10 := by omega
        have em0 : n % 100 % 10 = n % 10 := by omega
        have oA : ¬ n < 10 := by omega
        simp [usint2decascii, powers, convLoop, USINT2DECASCII_MAX_DIGITS,
          s4, s3, s2, s1, s0, em4, em3, e4, e3, e2,
          hB, hC, hD, o4, o3, o2, oA, em1, em0]
        omega
    · have e4 : n / 10000 = 0 := by omega
      have e3 : n / 1000 ≠ 0 := by omega
      have o4 : ¬ 10000 ≤ n := by omega
      have o3 : 1000 ≤ n := by omega
      have em2 : n % 1000 / 100 = n / 100 % 10 := by omega
      have em1 : n % 1000 % 100 / 10 = n / 10 % 10 := by omega
      have em0 : n % 1000 % 100 % 10 = n % 10 := by omega
      have oA : ¬ n < 10 := by omega
      have oB : ¬ n < 100 := by omega
      simp [usint2decascii, powers, convLoop, USINT2DECASCII_MAX_DIGITS,
        s4, s3, s2, s1, s0, em4, e4, e3,
        hC, hD, o4, o3, oA, oB, em2, em1, em0]
      omega
  · have e4 : n / 10000 ≠ 0 := by omega
    have o4 : 10000 ≤ n := by omega
    have em3 : n % 10000 / 1000 = n / 1000 % 10 := by omega
    have em2 : n % 10000 % 1000 / 100 = n / 100 % 10 := by omega
    have em1 : n % 10000 % 1000 % 100 / 10 = n / 10 % 10 := by omega
    have em0 : n % 10000 % 1000 % 100 % 10 = n % 10 := by omega
    have oA : ¬ n < 10 := by omega
    have oB : ¬ n < 100 := by omega
    have oC : ¬ n < 1000 := by omega
    simp [usint2decascii, powers, convLoop, USINT2DECASCII_MAX_DIGITS,
      s4, s3, s2, s1, s0, e4, hD, o4, oA, oB, oC, em3, em2, em1, em0]

theorem decimalAscii_two (n : Nat) (h1 : 10 ≤ n) (h2 : n < 100) :
    decimalAscii n = [n / 10 % 10 + 48, n % 10 + 48] := by
  unfold decimalAscii
  rw [if_neg (by omega)]
  rw [Nat.digits_def' (b := 10) (by norm_num) (show 0 < n by omega)]
  rw [Nat.digits_def' (b := 10) (by norm_num) (show 0 < n / 10 by omega)]
  have hz : n / 10 / 10 = 0 := by omega
  rw [hz, Nat.digits_zero]
  simp

theorem decimalAscii_three (n : Nat) (h1 : 100 ≤ n) (h2 : n < 1000) :
    decimalAscii n = [n / 100 % 10 + 48, n / 10 % 10 + 48, n % 10 + 48] := by
  unfold decimalAscii
  rw [if_neg (by omega)]
  rw [Nat.digits_def' (b := 10) (by norm_num) (show 0 < n by omega)]
  rw [Nat.digits_def' (b := 10) (by norm_num) (show 0 < n / 10 by omega)]
  rw [Nat.digits_def' (b := 10) (by norm_num) (show 0 < n / 10 / 10 by omega)]
  have hz : n / 10 / 10 / 10 = 0 := by omega
  rw [hz, Nat.digits_zero]
  have hq : n / 10 / 10 % 10 = n / 100 % 10 := by omega
  simp [hq]

theorem decimalAscii_four (n : Nat) (h1 : 1000 ≤ n) (h2 : n < 10000) :
    decimalAscii n =
      [n / 1000 % 10 + 48, n / 100 % 10 + 48, n / 10 % 10 + 48, n % 10 + 48] := by
  unfold decimalAscii
  rw [if_neg (by omega)]
  rw [Nat.digits_def' (b := 10) (by norm_num) (show 0 < n by omega)]
  rw [Nat.digits_def' (b := 10) (by norm_num) (show 0 < n / 10 by omega)]
  rw [Nat.digits_def' (b := 10) (by norm_num) (show 0 < n / 10 / 10 by omega)]
  rw [Nat.digits_def' (b := 10) (by norm_num) (show 0 < n / 10 / 10 / 10 by omega)]
  have hz : n / 10 / 10 / 10 / 10 = 0 := by omega
  rw [hz, Nat.digits_zero]
  have hq2 : n / 10 / 10 % 10 = n / 100 % 10 := by omega
  have hq3 : n / 10 / 10 / 10 % 10 = n / 1000 % 10 := by omega
  simp [hq2, hq3]

theorem decimalAscii_five (n : Nat) (h1 : 10000 ≤ n) (h2 : n < 100000) :
    decimalAscii n =
      [n / 10000 + 48, n / 1000 % 10 + 48, n / 100 % 10 + 48,
       n / 10 % 10 + 48, n % 10 + 48] := by
  unfold decimalAscii
  rw [if_neg (by omega)]
  rw [Nat.digits_def' (b := 10) (by norm_num) (show 0 < n by omega)]
  rw [Nat.digits_def' (b := 10) (by norm_num) (show 0 < n / 10 by omega)]
  rw [Nat.digits_def' (b := 10) (by norm_num) (show 0 < n / 10 / 10 by omega)]
  rw [Nat.digits_def' (b := 10) (by norm_num) (show 0 < n / 10 / 10 / 10 by omega)]
  rw [Nat.digits_def' (b := 10) (by norm_num) (show 0 < n / 10 / 10 / 10 / 10 by omega)]
  have hz : n / 10 / 10 / 10 / 10 / 10 = 0 := by omega
  rw [hz, Nat.digits_zero]
  have hq2 : n / 10 / 10 % 10 = n / 100 % 10 := by omega
  have hq3 : n / 10 / 10 / 10 % 10 = n / 1000 % 10 := by omega
  have hq4 : n / 10 / 10 / 10 / 10 % 10 = n / 10000 := by omega
  simp [hq2, hq3, hq4]

/-- C3: `printInt` renders via `usint2decascii` the decimal value of its
uint16 argument with leading positions blanked: `usint2decascii 0` returns
offset 4 and the rendered string is "0"; `usint2decascii 12345` returns
offset 0 and renders "12345"; and for every n in 0..65535 the buffer from
the returned offset on is the standard decimal representation of n with no
leading blanks. -/
theorem printInt_decimal :
    (usint2decascii 0).2 = 4 ∧ printedDigits 0 = [48] ∧
    (usint2decascii 12345).2 = 0 ∧ printedDigits 12345 = [49, 50, 51, 52, 53] ∧
    ∀ n : Nat, n < 65536 → printedDigits n = decimalAscii n := by
  refine ⟨by decide, by decide, by decide, by decide, ?_⟩
  intro n hn
  unfold printedDigits
  rw [usint2decascii_eval]
  by_cases hD : n < 10000
  · by_cases hC : n < 1000
    · by_cases hB : n < 100
      · by_cases hA : n < 10
        · by_cases h0 : n = 0
          · subst h0; decide
          · rw [if_pos hD, if_pos hC, if_pos hB, if_pos hA,
              if_neg (show ¬ 10000 ≤ n by omega), if_neg (show ¬ 1000 ≤ n by omega),
              if_neg (show ¬ 100 ≤ n by omega), if_neg (show ¬ 10 ≤ n by omega)]
            unfold decimalAscii
            rw [if_neg h0]
            rw [Nat.digits_def' (b := 10) (by norm_num) (show 0 < n by omega)]
            have hz : n / 10 = 0 := by omega
            rw [hz, Nat.digits_zero]
            simp
        · rw [if_pos hD, if_pos hC, if_pos hB, if_neg hA,
            if_neg (show ¬ 10000 ≤ n by omega), if_neg (show ¬ 1000 ≤ n by omega),
            if_neg (show ¬ 100 ≤ n by omega), if_pos (show 10 ≤ n by omega)]
          rw [decimalAscii_two n (by omega) (by omega)]
          rfl
      · rw [if_pos hD, if_pos hC, if_neg hB, if_neg (show ¬ n < 10 by omega),
          if_neg (show ¬ 10000 ≤ n by omega), if_neg (show ¬ 1000 ≤ n by omega),
          if_pos (show 100 ≤ n by omega)]
        rw [decimalAscii_three n (by omega) (by omega)]
        rfl
    · rw [if_pos hD, if_neg hC, if_neg (show ¬ n < 100 by omega),
        if_neg (show ¬ n < 10 by omega),
        if_neg (show ¬ 10000 ≤ n by omega), if_pos (show 1000 ≤ n by omega)]
      rw [decimalAscii_four n (by omega) (by omega)]
      rfl
  · rw [if_neg hD, if_neg (show ¬ n < 1000 by omega),
      if_neg (show ¬ n < 100 by omega), if_neg (show ¬ n < 10 by omega),
      if_pos (show 10000 ≤ n by omega)]
    rw [decimalAscii_five n (by omega) (by omega)]
    rfl

/-- Witness for C3's general clause at n = 305. -/
theorem printInt_decimal_witness : printedDigits 305 = decimalAscii 305 :=
  printInt_decimal.2.2.2.2 305 (by decide)

/-- C6: `drawHorizontal(x, y, len)` first sets the position to column `x` at
page `y/8`, then writes exactly `len` data bytes, each equal to
`1 << (y % 8)`, in a single data session. -/
theorem drawHor_spec : ∀ x y len : Nat,
    (D_DRAW_HOR x y len).take 5 = D_SETPOS x (y / 8) ∧
    writtenData (D_DRAW_HOR x y len) = List.replicate len (1 <<< (y % 8)) ∧
    numDat (D_DRAW_HOR x y len) = 1 ∧
    wellBracketed (D_DRAW_HOR x y len) := by
  intro x y len
  refine ⟨rfl, ?_, ?_, wb_drawHor x y len⟩
  · unfold writtenData D_DRAW_HOR
    rw [List.append_assoc, List.append_assoc, dataBytes_setpos_append,
      List.singleton_append, dataBytes_startDat, dataBytes_replicate_tx]
    simp [dataBytes]
  · unfold numDat D_DRAW_HOR D_SETPOS
    simp [List.countP_append, List.countP_cons, isStartDat, countP_replicate]

/-- C7: `clearDisplay()` sets the position to (0,0) and then writes exactly
1024 zero bytes in one single data session. -/
theorem clear_spec :
    D_CLEAR.take 5 = D_SETPOS 0 0 ∧
    writtenData D_CLEAR = List.replicate 1024 0 ∧
    numDat D_CLEAR = 1 ∧
    wellBracketed D_CLEAR := by
  refine ⟨rfl, ?_, ?_, ?_⟩
  · unfold writtenData D_CLEAR
    rw [List.append_assoc, List.append_assoc, dataBytes_setpos_append,
      List.singleton_append, dataBytes_startDat, dataBytes_replicate_tx]
    norm_num [dataBytes]
  · unfold numDat D_CLEAR D_SETPOS
    rw [List.append_assoc, List.append_assoc, List.countP_append, List.countP_append,
      List.countP_append, countP_replicate]
    simp [List.countP_cons, isStartDat]
  · exact wb_clear

/-- C8: `initialize()` opens exactly one command stream, transmits the fixed
init sequence byte-exact and in order, then the column-address-range command
with bounds [0,0x7F] and the page-address-range command with bounds [0,7],
and closes the stream. -/
theorem init_spec :
    numCmd D_INIT = 1 ∧ numDat D_INIT = 0 ∧ wellBracketed D_INIT ∧
    writtenCmd D_INIT =
      [0xAE, 0x20, 0x00, 0xB0, 0xC8, 0x00, 0x10, 0x40, 0x81, 0x00, 0xA1, 0xA6,
       0xA8, 0x3F, 0xA4, 0xD3, 0x00, 0xD5, 0xF0, 0xD9, 0x22, 0xDA, 0x12, 0xDB,
       0x20, 0x8D, 0x14, 0xAF,
       0x21, 0x00, 0x7F, 0x22, 0x00, 0x07] ∧
    D_INIT.getLast? = some Ev.stop := by
  refine ⟨rfl, rfl, rfl, rfl, rfl⟩

/-- C9: `printString` applied to the empty string performs no bus operation
at all: the trace is empty, so no session is opened and no byte is sent. -/
theorem printStr_empty :
    D_PRINT_STR [] = [] ∧ writtenData (D_PRINT_STR []) = [] ∧
    numDat (D_PRINT_STR []) = 0 ∧ numCmd (D_PRINT_STR []) = 0 := by
  refine ⟨rfl, rfl, rfl, rfl⟩

/-- C10: `drawVertical` with `length = 0` still writes exactly one data byte,
equal to `(0xFF << (y%8)) & (0xFF >> (y%8))`; when `y % 8 = 0` that byte is
0xFF. -/
theorem drawVert_lenZero : ∀ x y : Nat, y < 256 →
    writtenData (D_DRAW_VERT x y 0) =
      [((0xFF <<< (y % 8)) % 256) &&& (0xFF >>> (y % 8))] ∧
    (y % 8 = 0 → writtenData (D_DRAW_VERT x y 0) = [0xFF]) := by
  intro x y _
  rw [writtenData_drawVert]
  have hspan : (y + 0) / 8 - y / 8 = 0 := by omega
  constructor
  · simp [vertBytes, hspan]
  · intro h8
    simp [vertBytes, hspan, h8]

/-- Witness for C10 at x = 3, y = 8. -/
theorem drawVert_lenZero_witness :
    writtenData (D_DRAW_VERT 3 8 0) =
      [((0xFF <<< (8 % 8)) % 256) &&& (0xFF >>> (8 % 8))] ∧
    (8 % 8 = 0 → writtenData (D_DRAW_VERT 3 8 0) = [0xFF]) :=
  drawVert_lenZero 3 8 (by decide)

/-- Counterexample to C2 as stated: at x = 0, y = 4, length = 4 we have
`y%8 + length = 8 ≤ 8`, yet the code writes two data bytes (pages 0 and 1),
not one byte equal to `firstMask & lastMask`. -/
theorem drawVert_singlePage_cex :
    writtenData (D_DRAW_VERT 0 4 4) = [0xF0, 0xFF] ∧
    writtenData (D_DRAW_VERT 0 4 4) ≠
      [((0xFF <<< (4 % 8)) % 256) &&& (0xFF >>> ((4 + 4) % 8))] := by
  refine ⟨by decide, by decide⟩

/-- C2 (amended): for `y%8 + length ≤ 7` (a line that truly stays within one
page under the code's page arithmetic), exactly one data byte is written,
equal to `(0xFF << (y%8)) & (0xFF >> ((y+length)%8))`. -/
theorem drawVert_singlePage : ∀ x y len : Nat, y < 256 → len < 256 →
    y % 8 + len ≤ 7 →
    writtenData (D_DRAW_VERT x y len) =
      [((0xFF <<< (y % 8)) % 256) &&& (0xFF >>> ((y + len) % 8))] := by
  intro x y len _ _ h
  rw [writtenData_drawVert]
  have hspan : (y + len) / 8 - y / 8 = 0 := by omega
  simp [vertBytes, hspan]

/-- Witness for C2 (amended) at x = 0, y = 9, length = 5. -/
theorem drawVert_singlePage_witness :
    writtenData (D_DRAW_VERT 0 9 5) =
      [((0xFF <<< (9 % 8)) % 256) &&& (0xFF >>> ((9 + 5) % 8))] :=
  drawVert_singlePage 0 9 5 (by decide) (by decide) (by decide)

/-- Counterexample to C1 as stated: at y = 0, length = 8 (within the claim's
ranges) the code issues 2 page writes while `ceil((y%8+length)/8) = 1`; and
at y = 0, length = 1 the single byte written is 0x7F, not
`0xFF << (y%8) = 0xFF`, so the first-page byte clause also fails for
single-page lines. -/
theorem drawVert_pageWrites_cex :
    (writtenData (D_DRAW_VERT 0 0 8)).length = 2 ∧
    (0 % 8 + 8 + 7) / 8 = 1 ∧
    writtenData (D_DRAW_VERT 0 0 1) = [0x7F] ∧
    (0x7F : Nat) ≠ (0xFF <<< (0 % 8)) % 256 := by
  refine ⟨by decide, by decide, by decide, by decide⟩

/-- C1 (amended): for y in 0..63, length in 1..64 with y+length ≤ 64,
`drawVertical` issues exactly `(y+length)/8 - y/8 + 1` page writes (this is
`ceil((y%8+length)/8)` except when `y%8+length` is divisible by 8, where one
extra page write occurs).  When the start and end page coincide the unique
byte is `firstMask & lastMask`; otherwise the first page receives
`firstMask = 0xFF << (y%8)`, the last page `lastMask = 0xFF >> ((y+length)%8)`,
and every intermediate page 0xFF. -/
theorem drawVert_pageWrites : ∀ x : Nat, ∀ y < 64, ∀ len < 65, 1 ≤ len → y + len ≤ 64 →
    (writtenData (D_DRAW_VERT x y len)).length = (y + len) / 8 - y / 8 + 1 ∧
    ((y + len) / 8 = y / 8 →
      writtenData (D_DRAW_VERT x y len) =
        [((0xFF <<< (y % 8)) % 256) &&& (0xFF >>> ((y + len) % 8))]) ∧
    (y / 8 < (y + len) / 8 →
      (writtenData (D_DRAW_VERT x y len)).head? = some ((0xFF <<< (y % 8)) % 256) ∧
      (writtenData (D_DRAW_VERT x y len)).getLast? = some (0xFF >>> ((y + len) % 8)) ∧
      ∀ b ∈ ((writtenData (D_DRAW_VERT x y len)).drop 1).dropLast, b = 0xFF) := by
  have key : ∀ y < 64, ∀ len < 65, 1 ≤ len → y + len ≤ 64 →
      (vertBytes y len).length = (y + len) / 8 - y / 8 + 1 ∧
      ((y + len) / 8 = y / 8 →
        vertBytes y len = [((0xFF <<< (y % 8)) % 256) &&& (0xFF >>> ((y + len) % 8))]) ∧
      (y / 8 < (y + len) / 8 →
        (vertBytes y len).head? = some ((0xFF <<< (y % 8)) % 256) ∧
        (vertBytes y len).getLast? = some (0xFF >>> ((y + len) % 8)) ∧
        ∀ b ∈ ((vertBytes y len).drop 1).dropLast, b = 0xFF) := by
    set_option synthInstance.maxSize 1024 in
    set_option maxHeartbeats 1000000 in
    decide
  intro x y hy len hl h1 h2
  simpa only [writtenData_drawVert] using key y hy len hl h1 h2

/-- C4: in every public operation, every `D_START_CMD`/`D_START_DAT` is
matched by exactly one `D_STOP` before the next open, and no session is left
open or nested on any path. -/
theorem sessions_bracketed :
    wellBracketed D_INIT ∧
    (∀ x y : Nat, wellBracketed (D_SETPOS x y)) ∧
    wellBracketed D_CLEAR ∧
    wellBracketed D_ON ∧
    wellBracketed D_OFF ∧
    (∀ c : Nat, wellBracketed (D_CONTRAST c)) ∧
    (∀ x y len : Nat, wellBracketed (D_DRAW_HOR x y len)) ∧
    (∀ x y len : Nat, wellBracketed (D_DRAW_VERT x y len)) ∧
    (∀ ch : Nat, wellBracketed (D_PRINT_CHAR ch)) ∧
    (∀ s : List Nat, wellBracketed (D_PRINT_STR s)) ∧
    (∀ n : Nat, wellBracketed (D_PRINT_INT n)) :=
  ⟨rfl, fun _ _ => rfl, wb_clear, rfl, rfl, fun _ => rfl, wb_drawHor, wb_drawVert,
   wb_printChar, wb_printStr, fun n => wb_printStr (printedDigits n)⟩

theorem filter_lowTx (b s : Nat) : (lowTx b s).filter isStep = [LowEv.byte b] := by
  by_cases h : s &&& 0xF8 = 0x28 <;> simp [lowTx, h, isStep]

theorem filter_flatMap_lowTx (items : List (Nat × Nat)) :
    (items.flatMap fun p => lowTx p.1 p.2).filter isStep =
      items.map fun p => LowEv.byte p.1 := by
  induction items with
  | nil => simp
  | cons p ps ih => simp [List.filter_append, filter_lowTx, ih]

theorem errorSignal_mem_lowTx (b s : Nat) :
    LowEv.errorSignal ∈ lowTx b s ↔ s &&& 0xF8 ≠ 0x28 := by
  by_cases h : s &&& 0xF8 = 0x28 <;> simp [lowTx, h]

theorem filter_lowStartCmd (s1 s2 s3 : Nat) :
    (lowStartCmd s1 s2 s3).filter isStep =
      [LowEv.busStart, LowEv.addrW, LowEv.byte 0x00] := by
  by_cases h1 : s1 &&& 0xF8 = 0x08 <;> by_cases h2 : s2 &&& 0xF8 = 0x18 <;>
    simp [lowStartCmd, List.filter_append, filter_lowTx, h1, h2, isStep]

theorem filter_lowStartDat (s1 s2 s3 : Nat) :
    (lowStartDat s1 s2 s3).filter isStep =
      [LowEv.busStart, LowEv.addrW, LowEv.byte 0x40] := by
  by_cases h1 : s1 &&& 0xF8 = 0x08 <;> by_cases h2 : s2 &&& 0xF8 = 0x18 <;>
    simp [lowStartDat, List.filter_append, filter_lowTx, h1, h2, isStep]

theorem errorSignal_mem_lowStartCmd (s1 s2 s3 : Nat) :
    LowEv.errorSignal ∈ lowStartCmd s1 s2 s3 ↔
      s1 &&& 0xF8 ≠ 0x08 ∨ s2 &&& 0xF8 ≠ 0x18 ∨ s3 &&& 0xF8 ≠ 0x28 := by
  by_cases h1 : s1 &&& 0xF8 = 0x08 <;> by_cases h2 : s2 &&& 0xF8 = 0x18 <;>
    by_cases h3 : s3 &&& 0xF8 = 0x28 <;>
      simp [lowStartCmd, lowTx, h1, h2, h3]

theorem errorSignal_mem_lowStartDat (s1 s2 s3 : Nat) :
    LowEv.errorSignal ∈ lowStartDat s1 s2 s3 ↔
      s1 &&& 0xF8 ≠ 0x08 ∨ s2 &&& 0xF8 ≠ 0x18 ∨ s3 &&& 0xF8 ≠ 0x28 := by
  by_cases h1 : s1 &&& 0xF8 = 0x08 <;> by_cases h2 : s2 &&& 0xF8 = 0x18 <;>
    by_cases h3 : s3 &&& 0xF8 = 0x28 <;>
      simp [lowStartDat, lowTx, h1, h2, h3]

/-- C5: when a bus acknowledgment step fails (start condition, address phase,
or byte transmission), the error signal fires as a side effect, nothing is
returned to the caller, and the operation is not aborted: whatever the
observed statuses, the protocol steps performed are exactly those of the
all-success run (every payload byte still goes out and the stop condition is
still issued), and the error signal appears in the trace exactly when some
acknowledgment check failed.  This holds for command and for data sessions. -/
theorem busError_policy : ∀ (s1 s2 s3 : Nat) (items : List (Nat × Nat)),
    ((lowCmdSession s1 s2 s3 items).filter isStep =
      (lowCmdSession 0x08 0x18 0x28 (items.map fun p => (p.1, 0x28))).filter isStep) ∧
    ((lowCmdSession s1 s2 s3 items).getLast? = some LowEv.busStop) ∧
    (LowEv.errorSignal ∈ lowCmdSession s1 s2 s3 items ↔
      s1 &&& 0xF8 ≠ 0x08 ∨ s2 &&& 0xF8 ≠ 0x18 ∨ s3 &&& 0xF8 ≠ 0x28 ∨
        ∃ p ∈ items, p.2 &&& 0xF8 ≠ 0x28) ∧
    ((lowDatSession s1 s2 s3 items).filter isStep =
      (lowDatSession 0x08 0x18 0x28 (items.map fun p => (p.1, 0x28))).filter isStep) ∧
    ((lowDatSession s1 s2 s3 items).getLast? = some LowEv.busStop) ∧
    (LowEv.errorSignal ∈ lowDatSession s1 s2 s3 items ↔
      s1 &&& 0xF8 ≠ 0x08 ∨ s2 &&& 0xF8 ≠ 0x18 ∨ s3 &&& 0xF8 ≠ 0x28 ∨
        ∃ p ∈ items, p.2 &&& 0xF8 ≠ 0x28) := by
  intro s1 s2 s3 items
  refine ⟨?_, ?_, ?_, ?_, ?_, ?_⟩
  · simp [lowCmdSession, List.filter_append, filter_lowStartCmd, filter_flatMap_lowTx, isStep]
  · exact List.getLast?_concat _
  · simp [lowCmdSession, errorSignal_mem_lowStartCmd, List.mem_flatMap,
      errorSignal_mem_lowTx, or_assoc]
  · simp [lowDatSession, List.filter_append, filter_lowStartDat, filter_flatMap_lowTx, isStep]
  · exact List.getLast?_concat _
  · simp [lowDatSession, errorSignal_mem_lowStartDat, List.mem_flatMap,
      errorSignal_mem_lowTx, or_assoc]

/-- Witness for C1 (amended) at x = 2, y = 3, length = 20. -/
theorem drawVert_pageWrites_witness :
    (writtenData (D_DRAW_VERT 2 3 20)).length = (3 + 20) / 8 - 3 / 8 + 1 ∧
    ((3 + 20) / 8 = 3 / 8 →
      writtenData (D_DRAW_VERT 2 3 20) =
        [((0xFF <<< (3 % 8)) % 256) &&& (0xFF >>> ((3 + 20) % 8))]) ∧
    (3 / 8 < (3 + 20) / 8 →
      (writtenData (D_DRAW_VERT 2 3 20)).head? = some ((0xFF <<< (3 % 8)) % 256) ∧
      (writtenData (D_DRAW_VERT 2 3 20)).getLast? = some (0xFF >>> ((3 + 20) % 8)) ∧
      ∀ b ∈ ((writtenData (D_DRAW_VERT 2 3 20)).drop 1).dropLast, b = 0xFF) :=
  drawVert_pageWrites 2 3 (by decide) 20 (by decide) (by decide) (by decide)

end SSD1306
